import Mathlib

/-
Verification development for the WeChat MP CLI tool (src/python_cli_app/main.py).
The Python code is shallowly embedded: JSON values become an inductive type,
json.loads becomes an executable recursive-descent parser, Python attribute
errors and type errors become an explicit error type threaded through Except,
and the stateful poll loop becomes a fuel-indexed step function over an
abstract stream of provider responses.
-/

set_option maxRecDepth 16384

namespace WX

/-- JSON values as produced by json.loads. Numeric literals are modelled as
integers; fractional numeric forms lie outside the fragment this development
exercises. -/
inductive Json where
  | null : Json
  | bool : Bool → Json
  | num : Int → Json
  | str : String → Json
  | arr : List Json → Json
  | obj : List (String × Json) → Json

/-- Python truthiness of a decoded JSON value: None, False, 0, empty string,
empty list and empty dict are falsy, everything else is truthy. -/
def Json.truthy : Json → Bool
  | Json.null => false
  | Json.bool b => b
  | Json.num n => n != 0
  | Json.str s => s != ""
  | Json.arr xs => !xs.isEmpty
  | Json.obj kvs => !kvs.isEmpty

/-- Whether a JSON value is an object, mirroring isinstance(x, dict). -/
def Json.isObj : Json → Bool
  | Json.obj _ => true
  | _ => false

/-- First binding of a key in a decoded JSON object, mirroring dict lookup. -/
def jlookup : List (String × Json) → String → Option Json
  | [], _ => none
  | (k, v) :: rest, key => if k = key then some v else jlookup rest key

/-- Whitespace skipping of the JSON grammar (space, tab, newline, return). -/
def skipWs : List Char → List Char
  | [] => []
  | c :: cs => if c = ' ' ∨ c = '\t' ∨ c = '\n' ∨ c = '\r' then skipWs cs else c :: cs

/-- Opening curly bracket character of JSON object syntax. -/
def lbrace : Char := Char.ofNat 123

/-- Closing curly bracket character of JSON object syntax. -/
def rbrace : Char := Char.ofNat 125

/-- Matches a literal character sequence at the head of the input. -/
def stripLit : List Char → List Char → Option (List Char)
  | [], cs => some cs
  | _ :: _, [] => none
  | p :: ps, c :: cs => if c = p then stripLit ps cs else none

/-- Value of a hexadecimal digit character. -/
def hexVal (c : Char) : Option Nat :=
  if '0' ≤ c ∧ c ≤ '9' then some (c.toNat - 48)
  else if 'a' ≤ c ∧ c ≤ 'f' then some (c.toNat - 87)
  else if 'A' ≤ c ∧ c ≤ 'F' then some (c.toNat - 55)
  else none

/-- Decodes one escape sequence after a backslash inside a JSON string. -/
def parseEscape : List Char → Option (Char × List Char)
  | [] => none
  | e :: cs =>
    if e = '"' ∨ e = '\\' ∨ e = '/' then some (e, cs)
    else if e = 'n' then some ('\n', cs)
    else if e = 't' then some ('\t', cs)
    else if e = 'r' then some ('\r', cs)
    else if e = 'b' then some (Char.ofNat 8, cs)
    else if e = 'f' then some (Char.ofNat 12, cs)
    else if e = 'u' then
      match cs with
      | a :: b :: c :: d :: rest =>
        match hexVal a, hexVal b, hexVal c, hexVal d with
        | some x, some y, some z, some w =>
          some (Char.ofNat (4096 * x + 256 * y + 16 * z + w), rest)
        | _, _, _, _ => none
      | _ => none
    else none

/-- Reads the body of a JSON string after the opening quote, consuming the
closing quote; fuel bounds the recursion and one unit per character suffices. -/
def parseStrChars : Nat → List Char → Option (String × List Char)
  | 0, _ => none
  | fuel + 1, cs =>
    match cs with
    | [] => none
    | c :: rest =>
      if c = '"' then some ("", rest)
      else
        match (if c = '\\' then parseEscape rest else some (c, rest)) with
        | none => none
        | some (ch, rest2) =>
          match parseStrChars fuel rest2 with
          | none => none
          | some (s, r) => some (String.singleton ch ++ s, r)

/-- Longest digit prefix of the input together with the remainder. -/
def takeDigits : List Char → (List Char × List Char)
  | [] => ([], [])
  | c :: cs =>
    if '0' ≤ c ∧ c ≤ '9' then
      let p := takeDigits cs
      (c :: p.fst, p.snd)
    else ([], c :: cs)

/-- Natural number denoted by a list of decimal digit characters. -/
def digitsToNat (ds : List Char) : Nat :=
  ds.foldl (fun a c => a * 10 + (c.toNat - 48)) 0

/-- Whether the input starts a fractional or exponent part, which this
integer-only number model rejects. -/
def startsFrac : List Char → Bool
  | [] => false
  | c :: _ => (c == '.') || (c == 'e') || (c == 'E')

/-- Reads an integer JSON number literal. -/
def parseNumber : List Char → Option (Json × List Char)
  | '-' :: rest =>
    match takeDigits rest with
    | ([], _) => none
    | (ds, r) => if startsFrac r then none else some (Json.num (-(digitsToNat ds : Int)), r)
  | cs =>
    match takeDigits cs with
    | ([], _) => none
    | (ds, r) => if startsFrac r then none else some (Json.num (digitsToNat ds), r)

mutual

/-- Reads one JSON value; fuel bounds the nesting recursion. -/
def parseVal : Nat → List Char → Option (Json × List Char)
  | 0, _ => none
  | fuel + 1, cs =>
    match skipWs cs with
    | [] => none
    | c :: rest =>
      if c = '"' then
        match parseStrChars (rest.length + 1) rest with
        | some (s, r) => some (Json.str s, r)
        | none => none
      else if c = lbrace then
        match skipWs rest with
        | c2 :: rest2 =>
          if c2 = rbrace then some (Json.obj [], rest2)
          else
            match parseMembers fuel (c2 :: rest2) with
            | some (ms, r) => some (Json.obj ms, r)
            | none => none
        | [] => none
      else if c = '[' then
        match skipWs rest with
        | c2 :: rest2 =>
          if c2 = ']' then some (Json.arr [], rest2)
          else
            match parseElems fuel (c2 :: rest2) with
            | some (xs, r) => some (Json.arr xs, r)
            | none => none
        | [] => none
      else if c = 'n' then
        match stripLit ['u', 'l', 'l'] rest with
        | some r => some (Json.null, r)
        | none => none
      else if c = 't' then
        match stripLit ['r', 'u', 'e'] rest with
        | some r => some (Json.bool true, r)
        | none => none
      else if c = 'f' then
        match stripLit ['a', 'l', 's', 'e'] rest with
        | some r => some (Json.bool false, r)
        | none => none
      else parseNumber (c :: rest)

/-- Reads the members of a JSON object after the opening bracket. -/
def parseMembers : Nat → List Char → Option (List (String × Json) × List Char)
  | 0, _ => none
  | fuel + 1, cs =>
    match skipWs cs with
    | [] => none
    | c :: rest =>
      if c = '"' then
        match parseStrChars (rest.length + 1) rest with
        | none => none
        | some (k, r1) =>
          match skipWs r1 with
          | ':' :: r2 =>
            match parseVal fuel r2 with
            | none => none
            | some (v, r3) =>
              match skipWs r3 with
              | ',' :: r4 =>
                match parseMembers fuel r4 with
                | some (ms, r5) => some ((k, v) :: ms, r5)
                | none => none
              | c2 :: r4 => if c2 = rbrace then some ([(k, v)], r4) else none
              | [] => none
          | _ => none
      else none

/-- Reads the elements of a JSON array after the opening bracket. -/
def parseElems : Nat → List Char → Option (List Json × List Char)
  | 0, _ => none
  | fuel + 1, cs =>
    match parseVal fuel cs with
    | none => none
    | some (v, r1) =>
      match skipWs r1 with
      | ',' :: r2 =>
        match parseElems fuel r2 with
        | some (xs, r3) => some (v :: xs, r3)
        | none => none
      | ']' :: r2 => some ([v], r2)
      | _ => none

end

/-- Model of json.loads: decodes the whole input as a single JSON document,
requiring only whitespace after the value; returns none exactly when the
model raises JSONDecodeError. -/
def parseJson (s : String) : Option Json :=
  let cs := s.toList
  match parseVal (2 * cs.length + 2) cs with
  | some (v, rest) => if skipWs rest = [] then some v else none
  | none => none

/-- Python runtime errors the listing code can raise: AttributeError from
calling .get on a non-dict value, TypeError from json.loads on a non-string
or from iterating a non-iterable value. -/
inductive PyErr where
  | attributeError : PyErr
  | typeError : PyErr

/-- Python iteration over a decoded JSON value, as used by the for loops:
lists yield their elements, strings yield one-character strings, dicts yield
their keys, and every other value raises TypeError. -/
def pyIter : Json → Except PyErr (List Json)
  | Json.arr xs => Except.ok xs
  | Json.str s => Except.ok (s.toList.map fun c => Json.str (String.singleton c))
  | Json.obj kvs => Except.ok (kvs.map fun kv => Json.str kv.fst)
  | _ => Except.error PyErr.typeError

/-- Title scan over one sub-entry of a decoded publish_info list, embedding
main.py lines 197-205: non-dict sub-entries are skipped; a dict sub-entry
yields its truthy direct title, else the truthy title of its appmsg_info
value fetched with .get(key, default dict), which raises AttributeError when
that value is not a dict. -/
def scanDetail : Json → Except PyErr (Option Json)
  | Json.obj kvs =>
    let t := (jlookup kvs ("title")).getD Json.null
    if t.truthy then Except.ok (some t)
    else
      match (jlookup kvs ("appmsg_info")).getD (Json.obj []) with
      | Json.obj a =>
        let t2 := (jlookup a ("title")).getD Json.null
        if t2.truthy then Except.ok (some t2) else Except.ok none
      | _ => Except.error PyErr.attributeError
  | _ => Except.ok none

/-- The inner for loop of main.py lines 196-205: scan sub-entries in order,
stopping at the first title; an exception propagates out of the loop. -/
def scanList : List Json → Except PyErr (Option Json)
  | [] => Except.ok none
  | d :: rest =>
    match scanDetail d with
    | Except.error e => Except.error e
    | Except.ok (some t) => Except.ok (some t)
    | Except.ok none => scanList rest

/-- Branches two and three of the per-item chain, main.py lines 193-214:
a truthy publish_info must be a string (json.loads raises TypeError
otherwise); a string that fails to decode is caught as JSONDecodeError and
leaves the title unset; otherwise the decoded value is iterated and scanned.
With a falsy publish_info the item falls through to its direct title. -/
def itemFallback (kvs : List (String × Json)) (publishInfo : Json) :
    Except PyErr (Option Json) :=
  if publishInfo.truthy then
    match publishInfo with
    | Json.str s =>
      match parseJson s with
      | none => Except.ok none
      | some details =>
        match pyIter details with
        | Except.error e => Except.error e
        | Except.ok ds => scanList ds
    | _ => Except.error PyErr.typeError
  else
    let t := (jlookup kvs ("title")).getD Json.null
    if t.truthy then Except.ok (some t) else Except.ok none

/-- Per-item title resolution, main.py lines 186-214. The two .get calls on
the item raise AttributeError for a non-dict item; a truthy non-dict
appmsg_info value raises AttributeError at its own .get call. The ok value
is the resolved title, none standing for the title-not-found diagnostic. -/
def itemTitle : Json → Except PyErr (Option Json)
  | Json.obj kvs =>
    let publishInfo := (jlookup kvs ("publish_info")).getD Json.null
    let appmsgInfo := (jlookup kvs ("appmsg_info")).getD Json.null
    if appmsgInfo.truthy then
      match appmsgInfo with
      | Json.obj a =>
        let t := (jlookup a ("title")).getD Json.null
        if t.truthy then Except.ok (some t) else itemFallback kvs publishInfo
      | _ => Except.error PyErr.attributeError
    else itemFallback kvs publishInfo
  | _ => Except.error PyErr.attributeError

/-- The enumerate loop over publish_list, main.py line 185: items are
processed in order and an uncaught per-item exception aborts the loop. -/
def processItems : List Json → Except PyErr (List (Option Json))
  | [] => Except.ok []
  | it :: rest =>
    match itemTitle it with
    | Except.error e => Except.error e
    | Except.ok t =>
      match processItems rest with
      | Except.error e => Except.error e
      | Except.ok ts => Except.ok (t :: ts)

/-- Ok value of a per-item result, with error collapsed to no title. -/
def okValue : Except PyErr (Option Json) → Option Json
  | Except.ok v => v
  | Except.error _ => none

/-- Extraction of the item collection, main.py line 178: dictionary .get
with a default empty dict and then a default empty list; either .get raises
AttributeError when its receiver is not a dict. -/
def pathExtract : Json → Except PyErr Json
  | Json.obj kvs =>
    match (jlookup kvs ("publish_page")).getD (Json.obj []) with
    | Json.obj pp => Except.ok ((jlookup pp ("publish_list")).getD (Json.arr []))
    | _ => Except.error PyErr.attributeError
  | _ => Except.error PyErr.attributeError

/-- Observable outcome of the fetch-and-parse body, main.py lines 170-217:
the JSONDecodeError branch, the early return on a falsy publish_list, the
per-item title listing, or a runtime error caught by the generic handler at
line 216. -/
inductive Outcome where
  | malformed : Outcome
  | empty : Outcome
  | listing : List (Option Json) → Outcome
  | runtimeError : Outcome

/-- Outcome of the listing stage once the body decoded to a JSON value. -/
def afterLoad (j : Json) : Outcome :=
  match pathExtract j with
  | Except.error _ => Outcome.runtimeError
  | Except.ok pl =>
    if pl.truthy then
      match pyIter pl with
      | Except.error _ => Outcome.runtimeError
      | Except.ok items =>
        match processItems items with
        | Except.error _ => Outcome.runtimeError
        | Except.ok ts => Outcome.listing ts
    else Outcome.empty

/-- Parsing pipeline of _fetch_and_print_articles for a raw response body. -/
def fetchParse (raw : String) : Outcome :=
  match parseJson raw with
  | none => Outcome.malformed
  | some j => afterLoad j

/-- Outcome of one iteration of the login wait loop as seen from the code:
either the address was read, or the iteration raised a transient exception
somewhere in the try block. -/
inductive Poll where
  | err : Poll
  | ok : String → Poll

/-- Authenticated-path substring checked by the loop, main.py line 44. -/
def loginHome : String := "mp.weixin.qq.com/cgi-bin/home"

/-- List containment of one character sequence at the head of another. -/
def isPrefixL : List Char → List Char → Bool
  | [], _ => true
  | _ :: _, [] => false
  | a :: as, b :: bs => (a = b) && isPrefixL as bs

/-- Substring containment over character lists. -/
def hasSubList (pat : List Char) : List Char → Bool
  | [] => isPrefixL pat []
  | c :: rest => isPrefixL pat (c :: rest) || hasSubList pat rest

/-- Python substring containment, the in operator on strings. -/
def hasSub (pat s : String) : Bool := hasSubList pat.toList s.toList

/-- The login wait loop of main.py lines 40-54, driven by the stream of
per-iteration results. The loop runs while not logged in and the attempt
counter is below the bound; a successful read that matches the
authenticated-path substring exits with the address, a successful non-match
increments the counter, and an erroring iteration leaves the counter
unchanged. Fuel bounds the number of iterations that are simulated; none
means the loop is still running after that many iterations. The returned
pair carries the matched address (or none for the timeout exit, where the
code returns None) and the number of iterations performed. -/
def pollRun (maxA : Nat) (resp : Nat → Poll) : Nat → Nat → Nat → Option (Option String × Nat)
  | 0, i, attempts => if attempts < maxA then none else some (none, i)
  | fuel + 1, i, attempts =>
    if attempts < maxA then
      match resp i with
      | Poll.err => pollRun maxA resp fuel (i + 1) attempts
      | Poll.ok url =>
        if hasSub loginHome url then some (some url, i + 1)
        else pollRun maxA resp fuel (i + 1) (attempts + 1)
    else some (none, i)

/-- Result of evaluating one fakeid probe script, main.py lines 80-88:
either the evaluation raised, or it returned a value whose truthiness
decides whether the probe wins. -/
inductive Probe where
  | err : Probe
  | val : Json → Probe

/-- Whether a probe produced no usable result: it raised, or returned a
falsy value. -/
def probeNoResult : Probe → Bool
  | Probe.err => true
  | Probe.val v => !v.truthy

/-- The fakeid probe chain, main.py lines 80-88: scripts are tried in
order, an exception is logged and treated as no result, and the first
truthy value wins (the code then applies str to it). -/
def probeChain : List Probe → Option Json
  | [] => none
  | Probe.err :: rest => probeChain rest
  | Probe.val v :: rest => if v.truthy then some v else probeChain rest

/-- Number of probes the chain evaluates before stopping. -/
def probesTried : List Probe → Nat
  | [] => 0
  | Probe.err :: rest => 1 + probesTried rest
  | Probe.val v :: rest => if v.truthy then 1 else 1 + probesTried rest

/-- Python truthiness of an optional string variable: unset (None) and the
empty string are falsy. -/
def truthyS : Option String → Bool
  | none => false
  | some s => s != ""

/-- The login information returned by do_login_flow on success. -/
structure LoginInfo where
  token : String
  fakeid : String
  nickname : Option String

/-- Composition of the extracted fields, main.py lines 104-111: all three
truthy gives the full record, token and fakeid truthy gives the record with
nickname unset, and anything else leaves login_info as None. -/
def composeLoginInfo (token fakeid nickname : Option String) : Option LoginInfo :=
  if truthyS token && truthyS fakeid && truthyS nickname then
    some ⟨token.getD (""), fakeid.getD (""), nickname⟩
  else if truthyS token && truthyS fakeid then
    some ⟨token.getD (""), fakeid.getD (""), none⟩
  else none

/-- Base address of the article listing endpoint, main.py line 154. -/
def articlesBase : String := "https://mp.weixin.qq.com/cgi-bin/appmsgpublish"

/-- The fixed query parameter set of main.py lines 155-158, in insertion
order. -/
def articleParams (token fakeid : String) : List (String × String) :=
  [("action", "list_ex"), ("begin", "0"), ("count", "5"), ("fakeid", fakeid),
   ("type", "101_1"), ("token", token), ("lang", "zh_CN"), ("f", "json"), ("ajax", "1")]

/-- Characters urllib quote_plus leaves unescaped. -/
def isUrlSafe (c : Char) : Bool :=
  ('a' ≤ c && c ≤ 'z') || ('A' ≤ c && c ≤ 'Z') || ('0' ≤ c && c ≤ '9') ||
    c = '_' || c = '.' || c = '-' || c = '~'

/-- Uppercase hexadecimal digit for a value below sixteen. -/
def hexDigitU (n : Nat) : Char :=
  if n < 10 then Char.ofNat (48 + n) else Char.ofNat (55 + n)

/-- UTF-8 byte sequence of a character, as quote_plus encodes it. -/
def utf8Bytes (c : Char) : List Nat :=
  let n := c.toNat
  if n < 128 then [n]
  else if n < 2048 then [192 + n / 64, 128 + n % 64]
  else if n < 65536 then [224 + n / 4096, 128 + (n / 64) % 64, 128 + n % 64]
  else [240 + n / 262144, 128 + (n / 4096) % 64, 128 + (n / 64) % 64, 128 + n % 64]

/-- Percent escape of one byte. -/
def pctByte (b : Nat) : String :=
  "%" ++ String.singleton (hexDigitU (b / 16)) ++ String.singleton (hexDigitU (b % 16))

/-- Model of urllib quote_plus: safe characters pass through, a space
becomes a plus sign, and every other character is percent-escaped bytewise. -/
def quotePlus (s : String) : String :=
  String.join (s.toList.map fun c =>
    if isUrlSafe c then String.singleton c
    else if c = ' ' then ("+") else String.join ((utf8Bytes c).map pctByte))

/-- Model of urllib urlencode over an ordered parameter list. -/
def urlencode (ps : List (String × String)) : String :=
  String.intercalate ("&") (ps.map fun kv => quotePlus kv.fst ++ "=" ++ quotePlus kv.snd)

/-- The article fetch address, main.py line 163. -/
def buildArticlesUrl (token fakeid : String) : String :=
  articlesBase ++ "?" ++ urlencode (articleParams token fakeid)

/-- Actions fetch_articles_command performs against the session provider. -/
inductive SessionAct where
  | openSession : SessionAct
  | navigate : String → SessionAct

/-- Observable result of fetch_articles_command before the listing stage. -/
inductive FetchCmdOutcome where
  | missingCredentials : FetchCmdOutcome
  | ran : FetchCmdOutcome

/-- The credential guard and session trace of fetch_articles_command,
main.py lines 124-143: a falsy token or fakeid logs an error and returns
before any browser work; otherwise the command opens a session, gets a
blank tab and navigates to the constructed article address. -/
def fetchArticlesCommand (token fakeid : Option String) :
    FetchCmdOutcome × List SessionAct :=
  if truthyS token && truthyS fakeid then
    (FetchCmdOutcome.ran,
      [SessionAct.openSession, SessionAct.navigate ("about:blank"),
       SessionAct.navigate (buildArticlesUrl (token.getD ("")) (fakeid.getD ("")))])
  else (FetchCmdOutcome.missingCredentials, [])

/-- The example raw body with the camel-case field names used in the spec
text. -/
def rawC2camel : String :=
  "\x7b\"publishPage\":\x7b\"publishList\":[\x7b\"appmsgInfo\":\x7b\"title\":\"Hello\"\x7d\x7d,\x7b\"publishInfo\":\"[\x7b\\\"title\\\":\\\"World\\\"\x7d]\"\x7d,\x7b\"title\":\"Direct\"\x7d,\x7b\"foo\":\"bar\"\x7d]\x7d\x7d"

/-- The example raw body with the snake-case field names the code reads. -/
def rawC2snake : String :=
  "\x7b\"publish_page\":\x7b\"publish_list\":[\x7b\"appmsg_info\":\x7b\"title\":\"Hello\"\x7d\x7d,\x7b\"publish_info\":\"[\x7b\\\"title\\\":\\\"World\\\"\x7d]\"\x7d,\x7b\"title\":\"Direct\"\x7d,\x7b\"foo\":\"bar\"\x7d]\x7d\x7d"

/-- Five-item collection whose third item carries an undecodable
publish_info string. -/
def rawC6five : String :=
  "\x7b\"publish_page\":\x7b\"publish_list\":[\x7b\"appmsg_info\":\x7b\"title\":\"A1\"\x7d\x7d,\x7b\"publish_info\":\"[\x7b\\\"title\\\":\\\"B2\\\"\x7d]\"\x7d,\x7b\"publish_info\":\"oops\"\x7d,\x7b\"title\":\"D4\"\x7d,\x7b\"appmsg_info\":\x7b\"title\":\"E5\"\x7d\x7d]\x7d\x7d"

/-- Two-item collection whose first item carries a truthy non-dict
appmsg_info value. -/
def rawC6bad : String :=
  "\x7b\"publish_page\":\x7b\"publish_list\":[\x7b\"appmsg_info\":5\x7d,\x7b\"title\":\"B\"\x7d]\x7d\x7d"

/-- A valid JSON body whose top level is a list, so the item-collection
path is absent. -/
def rawTopList : String := "[]"

/-- A valid JSON body that is an empty object. -/
def rawEmptyObj : String := "\x7b\x7d"

/-- Decoded publish_info list whose first sub-entry is a dict with a
non-dict appmsg_info value and whose second sub-entry carries the title. -/
def pubInfoC10 : String :=
  "[\x7b\"appmsg_info\":7\x7d,\x7b\"title\":\"X\"\x7d]"

/-- Item whose publish_info decodes to the list above. -/
def itemC10 : Json := Json.obj [("publish_info", Json.str pubInfoC10)]

/-- Item fields carrying both a nested appmsg_info title and a direct
title. -/
def itemC7kvs : List (String × Json) :=
  [("appmsg_info", Json.obj [("title", Json.str ("A"))]), ("title", Json.str ("B"))]

/-- Response stream in which every iteration raises. -/
def allErr : Nat → Poll := fun _ => Poll.err

/-- Response stream in which every read returns the authenticated address. -/
def okResp : Nat → Poll := fun _ => Poll.ok loginHome

/-- Probe chain with three failing probes and a truthy fourth. -/
def probesW : List Probe :=
  [Probe.err, Probe.err, Probe.err, Probe.val (Json.str ("id4"))]

/-- Sample token value. -/
def tok0 : String := "TOK123"

/-- Sample fakeid value containing a space and a slash, which quote_plus
must escape. -/
def fid0 : String := "f id/1"

/-- The listing stage never reports the JSONDecodeError outcome once the
body decoded successfully. -/
theorem afterLoad_ne_malformed (j : Json) : afterLoad j ≠ Outcome.malformed := by
  intro h
  unfold afterLoad at h
  split at h
  · exact Outcome.noConfusion h
  · split at h
    · split at h
      · exact Outcome.noConfusion h
      · split at h
        · exact Outcome.noConfusion h
        · exact Outcome.noConfusion h
    · exact Outcome.noConfusion h

/-- When no iteration of the login wait loop raises, the loop reaches an
exit within any fuel that covers the remaining attempt budget, and a
successful exit carries an address containing the authenticated-path
substring. -/
theorem pollRun_exits (maxA : Nat) (resp : Nat → Poll) (h : ∀ i, resp i ≠ Poll.err) :
    ∀ fuel i attempts, maxA ≤ attempts + fuel →
      ∃ o n, pollRun maxA resp fuel i attempts = some (o, n) ∧
        ∀ url, o = some url → hasSub loginHome url = true := by
  intro fuel
  induction fuel with
  | zero =>
    intro i attempts hle
    refine ⟨none, i, ?_, ?_⟩
    · simp [pollRun, show ¬attempts < maxA by omega]
    · intro url hu; exact Option.noConfusion hu
  | succ fuel ih =>
    intro i attempts hle
    by_cases hlt : attempts < maxA
    · cases hr : resp i with
      | err => exact absurd hr (h i)
      | ok url =>
        by_cases hm : hasSub loginHome url = true
        · refine ⟨some url, i + 1, ?_, ?_⟩
          · simp [pollRun, hlt, hr, hm]
          · intro u hu
            cases Option.some.inj hu
            exact hm
        · obtain ⟨o, n, h1, h2⟩ := ih (i + 1) (attempts + 1) (by omega)
          refine ⟨o, n, ?_, h2⟩
          simp [pollRun, hlt, hr, hm, h1]
    · refine ⟨none, i, ?_, ?_⟩
      · simp [pollRun, hlt]
      · intro url hu; exact Option.noConfusion hu

/-- C1 counterexample: with an attempt bound of one and a response stream
in which every address read raises a transient error, the login wait loop
is still running after ten iterations, because an erroring iteration does
not increment the attempt counter; the loop is not bounded by maxAttempts
iterations and, with persistent errors, never exits. -/
theorem poll_unbounded_on_errors : pollRun 1 allErr 10 0 0 = none := rfl

/-- C1 (amended): for every attempt bound and every response stream in
which no address read raises, the poll loop exits within maxAttempts
iterations, either successfully with an address containing the
authenticated-path substring or by exhausting the attempt budget and
returning the login failure value. -/
theorem poll_bounded_without_read_errors (maxA : Nat) (resp : Nat → Poll)
    (h : ∀ i, resp i ≠ Poll.err) :
    pollRun maxA resp maxA 0 0 ≠ none ∧
      ∀ url n, pollRun maxA resp maxA 0 0 = some (some url, n) →
        hasSub loginHome url = true := by
  obtain ⟨o, n, h1, h2⟩ := pollRun_exits maxA resp h maxA 0 0 (by omega)
  constructor
  · simp [h1]
  · intro url m hm
    rw [h1] at hm
    have hp := Option.some.inj hm
    exact h2 url (congrArg Prod.fst hp)

/-- Witness for the amended C1 theorem at a concrete stream whose reads
always succeed. -/
theorem poll_bounded_without_read_errors_w : pollRun 2 okResp 2 0 0 ≠ none :=
  (poll_bounded_without_read_errors 2 okResp (fun _ h => Poll.noConfusion h)).1

/-- C2 counterexample: the parser reads the snake-case field names
publish_page and publish_list, so the raw body written with the camel-case
names publishPage and publishList yields the empty outcome, not the four
claimed titles. -/
theorem camel_keys_yield_empty : fetchParse rawC2camel = Outcome.empty := rfl

/-- C2 (amended): the example raw body written with the field names the
code actually reads (publish_page, publish_list, appmsg_info,
publish_info) yields exactly the titles Hello, World, Direct and the
title-not-found marker, in that order. -/
theorem snake_keys_yield_titles :
    fetchParse rawC2snake =
      Outcome.listing [some (Json.str ("Hello")), some (Json.str ("World")),
        some (Json.str ("Direct")), none] := rfl

/-- C3 counterexample: with a token recovered but no fakeid, do_login_flow
returns None rather than a partial Credentials value; recovering exactly
one of the two identifiers is treated the same as recovering neither. -/
theorem one_sided_credentials_rejected :
    composeLoginInfo (some ("abc")) none none = none := rfl

/-- C3 (amended): credential composition returns a value exactly when both
the token and the fakeid are truthy; a missing half, exactly like a fully
missing pair, signals failure instead of partial credentials, and the
nickname never affects whether credentials are returned. -/
theorem login_info_requires_both (t f n : Option String) :
    (composeLoginInfo t f n).isSome = (truthyS t && truthyS f) := by
  unfold composeLoginInfo
  cases h1 : truthyS t <;> cases h2 : truthyS f <;> cases h3 : truthyS n <;>
    simp [h1, h2, h3]

/-- C4 counterexample: the fixed parameter set carries action=list_ex, not
action=list as the claim states. -/
theorem action_param_is_list_ex :
    (articleParams tok0 fid0).lookup ("action") = some ("list_ex") ∧
      ((articleParams tok0 fid0).lookup ("action") = some ("list") → False) := by
  constructor
  · rfl
  · intro h
    exact absurd h (by decide)

/-- C4 (amended): for every token and fakeid the fetch address is built
deterministically as the base address, a question mark and the urlencoded
fixed parameter set action=list_ex, begin=0, count=5, the fakeid,
type=101_1, the token, lang=zh_CN, f=json, ajax=1 (the page is fixed at
the first five entries; there are no pagination arguments), and on a
sample token and fakeid with characters needing escaping the resulting
address is the expected literal. -/
theorem articles_url_construction (token fakeid : String) :
    articleParams token fakeid =
      [("action", "list_ex"), ("begin", "0"), ("count", "5"), ("fakeid", fakeid),
       ("type", "101_1"), ("token", token), ("lang", "zh_CN"), ("f", "json"),
       ("ajax", "1")] ∧
    buildArticlesUrl token fakeid =
      articlesBase ++ "?" ++ urlencode (articleParams token fakeid) ∧
    buildArticlesUrl tok0 fid0 =
      "https://mp.weixin.qq.com/cgi-bin/appmsgpublish?action=list_ex&begin=0&count=5&fakeid=f+id%2F1&type=101_1&token=TOK123&lang=zh_CN&f=json&ajax=1" :=
  ⟨rfl, rfl, rfl⟩

/-- C5 counterexample: the body consisting of an empty top-level list is
valid JSON and the item-collection path is absent from it, yet the code
raises an AttributeError at the first .get call, which the generic handler
reports as an error; no empty Listing is returned. -/
theorem valid_json_runtime_error :
    parseJson rawTopList = some (Json.arr []) ∧
      fetchParse rawTopList = Outcome.runtimeError :=
  ⟨rfl, rfl⟩

/-- C5 (amended): parse reports the malformed-response outcome exactly
when the raw body is not valid JSON; and for every valid JSON body whose
top level is an object, whose publish_page value (defaulting to an empty
object when absent) is an object, and whose publish_list value (defaulting
to an empty list) is falsy, parse returns the empty outcome with no error.
Bodies in which the path is absent because the top level or the
publish_page value is not an object, or in which publish_list is truthy
but not a list, instead raise a runtime error caught by the generic
handler. -/
theorem parse_malformed_iff_and_empty :
    (∀ raw, fetchParse raw = Outcome.malformed ↔ parseJson raw = none) ∧
    (∀ raw j pl, parseJson raw = some j → pathExtract j = Except.ok pl →
      pl.truthy = false → fetchParse raw = Outcome.empty) := by
  constructor
  · intro raw
    cases hp : parseJson raw with
    | none => simp [fetchParse, hp]
    | some j => simpa [fetchParse, hp] using afterLoad_ne_malformed j
  · intro raw j pl hp he ht
    simp [fetchParse, hp, afterLoad, he, ht]

/-- Witness for the amended C5 theorem at the empty-object body. -/
theorem parse_malformed_iff_and_empty_w : fetchParse rawEmptyObj = Outcome.empty :=
  parse_malformed_iff_and_empty.2 rawEmptyObj (Json.obj []) (Json.arr []) rfl rfl rfl

/-- C6 counterexample: in a two-item collection whose first item carries
the truthy non-dict appmsg_info value five, the .get call on that value
raises an AttributeError that aborts the whole loop; the second item is
never examined and no two-item listing is produced, so an arbitrary
collection is not examined to the end. -/
theorem nondict_value_aborts_listing :
    fetchParse rawC6bad = Outcome.runtimeError := rfl

/-- C6 (amended): whenever every item of the collection resolves without a
runtime error (in particular a publish_info string that fails to decode is
caught per item and resolves to the title-not-found marker), the loop
examines all items in order and produces exactly the pointwise per-item
results, so one item never drops or reorders its siblings; and the
concrete five-item collection whose third item carries an undecodable
publish_info yields five results with items one, two, four and five titled
and item three marked title-not-found. -/
theorem items_examined_pointwise :
    (∀ items : List Json, (∀ it ∈ items, ∃ v, itemTitle it = Except.ok v) →
      processItems items = Except.ok (items.map fun it => okValue (itemTitle it))) ∧
    fetchParse rawC6five =
      Outcome.listing [some (Json.str ("A1")), some (Json.str ("B2")), none,
        some (Json.str ("D4")), some (Json.str ("E5"))] := by
  constructor
  · intro items h
    induction items with
    | nil => rfl
    | cons it rest ih =>
      obtain ⟨v, hv⟩ := h it (List.mem_cons_self it rest)
      have hrest := ih (fun x hx => h x (List.mem_cons_of_mem it hx))
      simp [processItems, hv, hrest, okValue]
  · rfl

/-- Witness for the amended C6 theorem at a one-item collection. -/
theorem items_examined_pointwise_w :
    processItems [Json.obj []] =
      Except.ok ([Json.obj []].map fun it => okValue (itemTitle it)) :=
  items_examined_pointwise.1 [Json.obj []] (by
    intro it hit
    rw [List.mem_singleton] at hit
    subst hit
    exact ⟨none, rfl⟩)

/-- C7 (confirmed): an item carrying both a nested appmsg_info object with
a truthy title and a direct top-level title resolves to the appmsg_info
title; the first branch of the chain decides before the direct-title
branch is reached. -/
theorem appmsg_title_precedence (kvs a : List (String × Json)) (t d : Json)
    (ham : jlookup kvs ("appmsg_info") = some (Json.obj a))
    (ht : jlookup a ("title") = some t) (htt : t.truthy = true)
    (hd : jlookup kvs ("title") = some d) (hdt : d.truthy = true) :
    itemTitle (Json.obj kvs) = Except.ok (some t) := by
  have ha : (Json.obj a).truthy = true := by
    cases a with
    | nil => simp [jlookup] at ht
    | cons x xs => simp [Json.truthy]
  simp [itemTitle, ham, ha, ht, htt]

/-- Witness for C7 at an item carrying both titles. -/
theorem appmsg_title_precedence_w :
    itemTitle (Json.obj itemC7kvs) = Except.ok (some (Json.str ("A"))) :=
  appmsg_title_precedence itemC7kvs [("title", Json.str ("A"))]
    (Json.str ("A")) (Json.str ("B")) rfl rfl rfl rfl rfl

/-- C8 (confirmed): a fetch call with a falsy token or fakeid returns the
missing-credentials outcome with an empty session trace: no session is
opened and navigate is never invoked. -/
theorem fetch_missing_credentials (token fakeid : Option String)
    (h : truthyS token = false ∨ truthyS fakeid = false) :
    fetchArticlesCommand token fakeid = (FetchCmdOutcome.missingCredentials, []) := by
  have hc : (truthyS token && truthyS fakeid) = false := by
    rcases h with h | h <;> simp [h]
  simp [fetchArticlesCommand, hc]

/-- Witness for C8 with a token present and the fakeid unset. -/
theorem fetch_missing_credentials_w :
    fetchArticlesCommand (some ("t")) none = (FetchCmdOutcome.missingCredentials, []) :=
  fetch_missing_credentials (some ("t")) none (Or.inr rfl)

/-- C9 (confirmed): when every probe of a prefix either raises or returns
a falsy value and the next probe returns a truthy value, the chain yields
exactly that value and stops after that probe, regardless of the probes
behind it, which are never evaluated. -/
theorem probe_first_truthy_wins (xs ys : List Probe) (v : Json)
    (hxs : ∀ p ∈ xs, probeNoResult p = true) (hv : v.truthy = true) :
    probeChain (xs ++ Probe.val v :: ys) = some v ∧
      probesTried (xs ++ Probe.val v :: ys) = xs.length + 1 := by
  induction xs with
  | nil => simp [probeChain, probesTried, hv]
  | cons p rest ih =>
    have hp := hxs p (List.mem_cons_self p rest)
    obtain ⟨ih1, ih2⟩ := ih (fun q hq => hxs q (List.mem_cons_of_mem p hq))
    cases p with
    | err =>
      constructor
      · simpa [probeChain] using ih1
      · simp [probesTried, ih2]
        try omega
    | val w =>
      have hw : w.truthy = false := by simpa [probeNoResult] using hp
      constructor
      · simp [probeChain, hw, ih1]
      · simp [probesTried, hw, ih2]
        try omega

/-- Witness for C9 with three failing probes and a truthy fourth. -/
theorem probe_first_truthy_wins_w :
    probeChain probesW = some (Json.str ("id4")) ∧ probesTried probesW = 4 :=
  probe_first_truthy_wins [Probe.err, Probe.err, Probe.err] [] (Json.str ("id4"))
    (by intro p hp; simp at hp; rcases hp with rfl | rfl | rfl <;> rfl) rfl

/-- C10 counterexample: an item whose publish_info decodes to a list whose
first sub-entry is an object carrying the non-dict appmsg_info value seven
raises an AttributeError during the scan instead of skipping to the
second sub-entry, which carries the title. -/
theorem subentry_attrerror_aborts :
    itemTitle itemC10 = Except.error PyErr.attributeError := rfl

/-- C10 (amended): during the title scan of a decoded publish_info list,
sub-entries that are not objects are skipped silently, never supply a
title and never raise; an object sub-entry with a truthy direct title
supplies that title and stops the scan; and an object sub-entry without a
truthy direct title whose appmsg_info value is an object with a truthy
title supplies that title — but a non-dict appmsg_info value in such a
sub-entry raises an error that aborts the listing, as the counterexample
shows. -/
theorem subscan_skip_and_first_object :
    (∀ d rest, d.isObj = false → scanList (d :: rest) = scanList rest) ∧
    (∀ kvs t rest, jlookup kvs ("title") = some t → t.truthy = true →
      scanList (Json.obj kvs :: rest) = Except.ok (some t)) ∧
    (∀ kvs a t rest, ((jlookup kvs ("title")).getD Json.null).truthy = false →
      jlookup kvs ("appmsg_info") = some (Json.obj a) →
      jlookup a ("title") = some t → t.truthy = true →
      scanList (Json.obj kvs :: rest) = Except.ok (some t)) := by
  refine ⟨?_, ?_, ?_⟩
  · intro d rest hd
    cases d <;> simp_all [scanList, scanDetail, Json.isObj]
  · intro kvs t rest ht htt
    simp [scanList, scanDetail, ht, htt]
  · intro kvs a t rest hdt ham ht htt
    simp [scanList, scanDetail, hdt, ham, ht, htt]

/-- Witness for the amended C10 theorem at a one-entry sub-list whose
object sub-entry carries a truthy direct title. -/
theorem subscan_skip_and_first_object_w :
    scanList [Json.obj [("title", Json.str ("T"))]] =
      Except.ok (some (Json.str ("T"))) :=
  subscan_skip_and_first_object.2.1 [("title", Json.str ("T"))]
    (Json.str ("T")) [] rfl rfl

end WX
